import Mathlib

/-!
Verification of the socket abstraction layer of CppUtils-Network
(src/Socket.cpp together with the matching revision of src/Socket.hpp),
for the POSIX build (the non-Windows branches of the platform conditionals).

Shallow-embedding conventions used throughout this file:

* `socket_t` is `Int` with `INVALID_SOCK = -1`; `system_error_t` is `Int`.
* Each native syscall that returns data (`send`, `recv`, `sendto`, `recvfrom`)
  is modelled by consuming one entry from an explicit trace of native results;
  an operation returns the unconsumed suffix of the trace, so the number of
  syscalls an operation issued is observable as the number of consumed entries.
  A trace entry is `(returnValue, errnoAfterTheCall)`.
* `size_t` arithmetic is modelled exactly, modulo `2 ^ 64` (`sizetSub`).
* Native operations performed directly on handles (`shutdown`, `close`,
  `socket`, `bind`, `listen`) are recorded in a `NativeOp` log, and their
  success or failure is an explicit boolean parameter.
* `critical_error` (which halts the process) and a retry loop that would issue
  more syscalls than the supplied trace provides are both modelled by `none`.
* The purely diagnostic re-reads of `errno` on success paths
  (`_lastSystemError = getLastError()`) read ambient process state and are not
  threaded; the `_lastSystemError` field is modelled where an operation moves
  or resets it (constructors and move assignment).
-/

namespace CppUtils

/-- The `enum class SocketError` of Socket.hpp. -/
inductive SocketError where
  | Success
  | AlreadyConnected
  | NotConnected
  | NetworkingInitFailed
  | HostNotResolved
  | ConnectFailed
  | SendFailed
  | ConnectionClosed
  | Timeout
  | WouldBlock
  | AlreadyOpen
  | NotOpen
  | BindFailed
  | ListenFailed
  | Other
  deriving DecidableEq, Repr

/-- POSIX branch of Socket.cpp: `constexpr own::socket_t INVALID_SOCK = -1`. -/
def INVALID_SOCK : Int := -1

/-- POSIX branch of Socket.cpp: `constexpr own::system_error_t SUCCESS = 0`. -/
def SUCCESS : Int := 0

/-- Linux errno value `EAGAIN`. -/
def EAGAIN : Int := 11

/-- Linux errno value `EWOULDBLOCK` (same value as `EAGAIN` on Linux). -/
def EWOULDBLOCK : Int := 11

/-- Linux errno value `ETIMEDOUT`. -/
def ETIMEDOUT : Int := 110

/-- Linux errno value `EBADF` (bad file descriptor). -/
def EBADF : Int := 9

/-- Linux address family `AF_INET`. -/
def AF_INET : Nat := 2

/-- Linux address family `AF_INET6`. -/
def AF_INET6 : Nat := 10

/-- Linux socket type `SOCK_STREAM`. -/
def SOCK_STREAM : Nat := 1

/-- Linux socket type `SOCK_DGRAM`. -/
def SOCK_DGRAM : Nat := 2

/-- Linux protocol number `IPPROTO_TCP`. -/
def IPPROTO_TCP : Nat := 6

/-- The IPv4 loopback address 127.0.0.1 as a 32-bit value (0x7F000001), the
address that `inet_pton( AF_INET, "127.0.0.1", ... )` stores in
`TcpServerSocket::open` and `UdpSocket::open`. -/
def LOOPBACK : Nat := 2130706433

/-- POSIX branch of `_isTimeout` in Socket.cpp:
`errorCode == EAGAIN || errorCode == EWOULDBLOCK || errorCode == ETIMEDOUT`. -/
def _isTimeout (errorCode : Int) : Bool :=
  errorCode == EAGAIN || errorCode == EWOULDBLOCK || errorCode == ETIMEDOUT

/-- POSIX branch of `_isWouldBlock` in Socket.cpp:
`errorCode == EAGAIN || errorCode == EWOULDBLOCK`. -/
def _isWouldBlock (errorCode : Int) : Bool :=
  errorCode == EAGAIN || errorCode == EWOULDBLOCK

/-- The state carried by `ASocket`, the base class of all three socket kinds:
the native handle, the last native error, and the cached blocking flag. -/
structure ASocket where
  _socket : Int
  _lastSystemError : Int
  _isBlocking : Bool
  deriving DecidableEq, Repr

/-- `ASocket::ASocket()`: handle `INVALID_SOCK`, last error `SUCCESS`,
blocking mode on. -/
def ASocket.init : ASocket :=
  { _socket := INVALID_SOCK, _lastSystemError := SUCCESS, _isBlocking := true }

/-- `ASocket::ASocket( socket_t sock )`: wraps an already created handle. -/
def ASocket.initFromHandle (sock : Int) : ASocket :=
  { _socket := sock, _lastSystemError := SUCCESS, _isBlocking := true }

/-- `ASocket::operator=( ASocket && other )`: the destination takes over all
three fields, and the source is reset to
`{ INVALID_SOCK, 0, false }`. Returns `(destination, movedFromSource)`.
(The move constructor `ASocket::ASocket( ASocket && )` delegates to this.) -/
def ASocket.moveAssign (other : ASocket) : ASocket × ASocket :=
  ( { _socket := other._socket
    , _lastSystemError := other._lastSystemError
    , _isBlocking := other._isBlocking }
  , { _socket := INVALID_SOCK, _lastSystemError := 0, _isBlocking := false } )

/-- `TcpSocket::isConnected()`: `_socket != INVALID_SOCK`. -/
def ASocket.isConnected (s : ASocket) : Bool :=
  s._socket != INVALID_SOCK

/-- `TcpServerSocket::isOpen()` and `UdpSocket::isOpen()`:
`_socket != INVALID_SOCK`. -/
def ASocket.isOpen (s : ASocket) : Bool :=
  s._socket != INVALID_SOCK

/-- The `size_t` modulus: `size_t` is 64 bits wide on the verified target. -/
def SIZET_MOD : Nat := 2 ^ 64

/-- Exact model of the C++ expression `a - b` at type `size_t`
(wrap-around modulo `2 ^ 64`). -/
def sizetSub (a b : Nat) : Nat :=
  (a % SIZET_MOD + (SIZET_MOD - b % SIZET_MOD)) % SIZET_MOD

/-- A log entry for a native operation performed directly on a handle. -/
inductive NativeOp where
  | shutdownOp (fd : Int)
  | closeOp (fd : Int)
  | socketOp (family type proto : Nat)
  | bindOp (fd : Int) (addr : Nat) (port : Nat)
  | listenOp (fd : Int) (backlog : Nat)
  deriving DecidableEq, Repr

/-- The error-classification chain shared verbatim by the `received <= 0`
branches of `TcpSocket::receive`, `TcpSocket::receiveOnce` and
`UdpSocket::recvFrom` (after the `received == 0` case where present):
`!_isBlocking && _isWouldBlock(e)` yields `WouldBlock`, otherwise
`_isTimeout(e)` yields `Timeout`, otherwise `Other`. -/
def classifyRecvError (isBlocking : Bool) (e : Int) : SocketError :=
  if !isBlocking && _isWouldBlock e then SocketError.WouldBlock
  else if _isTimeout e then SocketError.Timeout
  else SocketError.Other

/-- The `while (recvSize > 0)` retry loop of `TcpSocket::receive`.
`remaining` is `recvSize`; the result carries the final native handle
(`INVALID_SOCK` after an orderly peer close), the returned `SocketError`, the
value stored into `totalReceived`, and the unconsumed syscall trace. -/
def recvLoop (isBlocking : Bool) (sock : Int) (bufSize : Nat) :
    Nat → List (Int × Int) → Option ((Int × SocketError × Nat) × List (Int × Int))
  | remaining, trace =>
    if remaining = 0 then
      some ((sock, SocketError.Success, bufSize), trace)
    else
      match trace with
      | [] => none
      | (v, e) :: rest =>
        if v ≤ 0 then
          -- totalReceived = buffer.size() - recvSize
          let total := sizetSub bufSize remaining
          if v = 0 then
            -- server closed, so close on our side too and invalidate the handle
            some ((INVALID_SOCK, SocketError.ConnectionClosed, total), rest)
          else
            some ((sock, classifyRecvError isBlocking e, total), rest)
        else
          recvLoop isBlocking sock bufSize (sizetSub remaining v.toNat) rest

/-- `TcpSocket::receive( byte_span buffer, size_t & totalReceived )`.
Returns the updated socket object, the returned `SocketError`, the value
stored into the out-parameter `totalReceived` (`none` when the function
returns without assigning it), and the unconsumed syscall trace. -/
def TcpSocket.receive (s : ASocket) (bufSize : Nat) (trace : List (Int × Int)) :
    Option ((ASocket × SocketError × Option Nat) × List (Int × Int)) :=
  if !s.isConnected then
    some ((s, SocketError.NotConnected, none), trace)
  else
    (recvLoop s._isBlocking s._socket bufSize bufSize trace).map
      (fun r => (({ s with _socket := r.1.1 }, r.1.2.1, some r.1.2.2), r.2))

/-- The `while (sendSize > 0)` retry loop of `TcpSocket::send`.
`remaining` is `sendSize`; the result carries the returned `SocketError` and
the unconsumed syscall trace. -/
def sendLoop : Nat → List (Int × Int) → Option (SocketError × List (Int × Int))
  | remaining, trace =>
    if remaining = 0 then
      some (SocketError.Success, trace)
    else
      match trace with
      | [] => none
      | (v, _e) :: rest =>
        if v < 0 then
          some (SocketError.SendFailed, rest)
        else
          sendLoop (sizetSub remaining v.toNat) rest

/-- The precondition of the termination argument for the `TcpSocket::send`
retry loop, as a predicate over the syscall trace relative to the bytes still
unsent: while bytes remain, every native result along the execution is either
negative or strictly positive, and a positive result never exceeds the number
of bytes the call asked for (the POSIX guarantee that `send` reports at most
the requested count). -/
def sendProgressive : Nat → List (Int × Int) → Bool
  | _remaining, [] => true
  | remaining, (v, _e) :: rest =>
    if remaining = 0 then true
    else if v < 0 then true
    else if 0 < v ∧ v.toNat ≤ remaining then
      sendProgressive (sizetSub remaining v.toNat) rest
    else false

/-- `TcpSocket::send( const_byte_span buffer )`: fail fast with `NotConnected`
on an invalid handle, otherwise run the retry loop over the buffer. -/
def TcpSocket.send (s : ASocket) (bufSize : Nat) (trace : List (Int × Int)) :
    Option ((ASocket × SocketError) × List (Int × Int)) :=
  if !s.isConnected then
    some ((s, SocketError.NotConnected), trace)
  else
    (sendLoop bufSize trace).map (fun r => ((s, r.1), r.2))

/-- `TcpSocket::disconnect()`: `NotConnected` when the handle is invalid,
otherwise `shutdown` then `close` on the handle (each halting the process via
`critical_error` on failure, modelled by `none`), handle invalidated,
`Success`. Also the body of the destructor `TcpSocket::~TcpSocket()`. -/
def TcpSocket.disconnect (s : ASocket) (shutdownOK closeOK : Bool) :
    Option (ASocket × SocketError × List NativeOp) :=
  if !s.isConnected then
    some (s, SocketError.NotConnected, [])
  else if !shutdownOK then
    none
  else if !closeOK then
    none
  else
    some ({ s with _socket := INVALID_SOCK }, SocketError.Success,
          [NativeOp.shutdownOp s._socket, NativeOp.closeOp s._socket])

/-- `TcpSocket::~TcpSocket()`: calls `disconnect()`; yields the log of native
operations performed during destruction. -/
def TcpSocket.destructor (s : ASocket) (shutdownOK closeOK : Bool) :
    Option (List NativeOp) :=
  (TcpSocket.disconnect s shutdownOK closeOK).map (fun r => r.2.2)

/-- `TcpServerSocket::close()`: `NotOpen` when the handle is invalid, otherwise
`close` on the handle (no `shutdown`), handle invalidated, `Success`. -/
def TcpServerSocket.close (s : ASocket) (closeOK : Bool) :
    Option (ASocket × SocketError × List NativeOp) :=
  if !s.isOpen then
    some (s, SocketError.NotOpen, [])
  else if !closeOK then
    none
  else
    some ({ s with _socket := INVALID_SOCK }, SocketError.Success,
          [NativeOp.closeOp s._socket])

/-- `TcpServerSocket::~TcpServerSocket()`: calls `close()`; yields the log of
native operations performed during destruction. -/
def TcpServerSocket.destructor (s : ASocket) (closeOK : Bool) :
    Option (List NativeOp) :=
  (TcpServerSocket.close s closeOK).map (fun r => r.2.2)

/-- `ASocket::~ASocket()`: the body is empty; no native operation is
performed. -/
def ASocket.destructor (_s : ASocket) : List NativeOp := []

/-- `UdpSocket::~UdpSocket()`: the body is empty (`// delegate to ASocket`),
and `ASocket::~ASocket()` is empty as well, so destruction performs no native
operation at all. -/
def UdpSocket.destructor (s : ASocket) : List NativeOp :=
  ASocket.destructor s

/-- `UdpSocket::close()`: `NotOpen` when the handle is invalid, otherwise
`shutdown` then `close` (each halting the process on failure), handle
invalidated, `Success`. -/
def UdpSocket.close (s : ASocket) (shutdownOK closeOK : Bool) :
    Option (ASocket × SocketError × List NativeOp) :=
  if !s.isOpen then
    some (s, SocketError.NotOpen, [])
  else if !shutdownOK then
    none
  else if !closeOK then
    none
  else
    some ({ s with _socket := INVALID_SOCK }, SocketError.Success,
          [NativeOp.shutdownOp s._socket, NativeOp.closeOp s._socket])

/-- An `Endpoint`: an IP version tag (4 or 6; anything else models an
uninitialized `IPAddr`) and a port.  The core treats it as opaque apart from
the conversion boundary. -/
structure Endpoint where
  ipVer : Nat
  port : Nat
  deriving DecidableEq, Repr

/-- `endpointToSockaddr` (NetAddress.cpp) succeeds for IPv4 and IPv6 and
halts the process via `critical_error` otherwise. -/
def endpointToSockaddrOK (ep : Endpoint) : Bool :=
  ep.ipVer == 4 || ep.ipVer == 6

/-- `UdpSocket::sendTo( const Endpoint &, const_byte_span )`: converts the
endpoint (halting on an uninitialized address, modelled by `none`), then
issues exactly one native `sendto` — with no check of the handle — and
returns `SendFailed` on a negative result, `Success` otherwise. -/
def UdpSocket.sendTo (s : ASocket) (ep : Endpoint) (_bufSize : Nat)
    (trace : List (Int × Int)) :
    Option ((ASocket × SocketError) × List (Int × Int)) :=
  if !endpointToSockaddrOK ep then
    none
  else
    match trace with
    | [] => none
    | (v, _e) :: rest =>
      if v < 0 then
        some ((s, SocketError.SendFailed), rest)
      else
        some ((s, SocketError.Success), rest)

/-- `UdpSocket::recvFrom( Endpoint &, byte_span, size_t & )`: issues exactly
one native `recvfrom` — with no check of the handle — whose trace entry is
`(returnValue, errno, senderAddressFamily)`.  A negative result is classified
by the shared chain; on success the sender address is converted
(`sockaddrToEndpoint`, halting the process on an unexpected family) and
`totalReceived` is assigned.  The result carries the socket, the error, the
value assigned to `totalReceived` (`none` when left unassigned), the family
written into the out endpoint (`none` when left unassigned), and the
unconsumed trace. -/
def UdpSocket.recvFrom (s : ASocket) (_bufSize : Nat)
    (trace : List (Int × Int × Nat)) :
    Option ((ASocket × SocketError × Option Nat × Option Nat) × List (Int × Int × Nat)) :=
  match trace with
  | [] => none
  | (v, e, fam) :: rest =>
    if v < 0 then
      some ((s, classifyRecvError s._isBlocking e, none, none), rest)
    else if fam == AF_INET || fam == AF_INET6 then
      some ((s, SocketError.Success, some v.toNat, some fam), rest)
    else
      none

/-- `TcpServerSocket::open( uint16_t port )`: `AlreadyOpen` on a valid handle;
`NetworkingInitFailed` when subsystem initialization fails; creates a stream
socket (`Other` on failure); binds it to 127.0.0.1 at the given port
(`BindFailed`, closing the socket, on failure); puts it into listening state
with backlog 16 (`ListenFailed`, closing the socket, on failure); `Success`
otherwise.  `newSock` is the native result of the `socket` call; the log
records the handle-level native operations issued. -/
def TcpServerSocket.open (s : ASocket) (port : Nat) (initOK : Bool)
    (newSock : Int) (bindOK listenOK : Bool) :
    ASocket × SocketError × List NativeOp :=
  if s._socket != INVALID_SOCK then
    (s, SocketError.AlreadyOpen, [])
  else if !initOK then
    (s, SocketError.NetworkingInitFailed, [])
  else if newSock == INVALID_SOCK then
    ({ s with _socket := INVALID_SOCK }, SocketError.Other,
     [NativeOp.socketOp AF_INET SOCK_STREAM IPPROTO_TCP])
  else if !bindOK then
    ({ s with _socket := INVALID_SOCK }, SocketError.BindFailed,
     [NativeOp.socketOp AF_INET SOCK_STREAM IPPROTO_TCP,
      NativeOp.bindOp newSock LOOPBACK port,
      NativeOp.closeOp newSock])
  else if !listenOK then
    ({ s with _socket := INVALID_SOCK }, SocketError.ListenFailed,
     [NativeOp.socketOp AF_INET SOCK_STREAM IPPROTO_TCP,
      NativeOp.bindOp newSock LOOPBACK port,
      NativeOp.listenOp newSock 16,
      NativeOp.closeOp newSock])
  else
    ({ s with _socket := newSock }, SocketError.Success,
     [NativeOp.socketOp AF_INET SOCK_STREAM IPPROTO_TCP,
      NativeOp.bindOp newSock LOOPBACK port,
      NativeOp.listenOp newSock 16])

/-- `UdpSocket::open( uint16_t port )`: like the server open but for a
datagram socket, with no listen step, and the bind step skipped entirely when
`port == 0`. -/
def UdpSocket.open (s : ASocket) (port : Nat) (initOK : Bool)
    (newSock : Int) (bindOK : Bool) :
    ASocket × SocketError × List NativeOp :=
  if s._socket != INVALID_SOCK then
    (s, SocketError.AlreadyOpen, [])
  else if !initOK then
    (s, SocketError.NetworkingInitFailed, [])
  else if newSock == INVALID_SOCK then
    ({ s with _socket := INVALID_SOCK }, SocketError.Other,
     [NativeOp.socketOp AF_INET SOCK_DGRAM 0])
  else if port != 0 then
    if !bindOK then
      ({ s with _socket := INVALID_SOCK }, SocketError.BindFailed,
       [NativeOp.socketOp AF_INET SOCK_DGRAM 0,
        NativeOp.bindOp newSock LOOPBACK port,
        NativeOp.closeOp newSock])
    else
      ({ s with _socket := newSock }, SocketError.Success,
       [NativeOp.socketOp AF_INET SOCK_DGRAM 0,
        NativeOp.bindOp newSock LOOPBACK port])
  else
    ({ s with _socket := newSock }, SocketError.Success,
     [NativeOp.socketOp AF_INET SOCK_DGRAM 0])

/-- The outcome of the single `select` syscall in `waitForAny`: either the
syscall itself errored (negative return), or it completed and left a set of
handles marked in the fd set (empty when the timeout elapsed first). -/
inductive SelectResult where
  | selectError
  | completed (marked : Int → Bool)

/-- Free function `waitForAny( activeSockets, readySockets, timeout )`:
builds an fd set from the sockets' handles, issues one `select` bounded by the
timeout, returns `false` if the syscall errors (leaving `readySockets`
untouched), and otherwise appends to `readySockets` every input socket whose
handle is marked in the post-select fd set and returns `true`.  The input
sockets are modelled as the list the set iteration visits; `timeout_ms` only
bounds the syscall and is threaded for fidelity. -/
def waitForAny (activeSockets : List ASocket) (readySockets : List ASocket)
    (_timeout_ms : Nat) (res : SelectResult) : Bool × List ASocket :=
  match res with
  | SelectResult.selectError => (false, readySockets)
  | SelectResult.completed marked =>
      (true, readySockets ++ activeSockets.filter (fun s => marked s._socket))

/-! ## Helper lemmas -/

theorem SIZET_MOD_pos : 0 < SIZET_MOD := by
  unfold SIZET_MOD
  positivity

/-- When the subtrahend is no larger than the minuend and the minuend fits in
`size_t`, the wrap-around subtraction is ordinary subtraction. -/
theorem sizetSub_of_le {a b : Nat} (ha : a < SIZET_MOD) (hb : b ≤ a) :
    sizetSub a b = a - b := by
  have hba : b < SIZET_MOD := lt_of_le_of_lt hb ha
  unfold sizetSub
  rw [Nat.mod_eq_of_lt ha, Nat.mod_eq_of_lt hba]
  have h1 : a + (SIZET_MOD - b) = (a - b) + SIZET_MOD := by omega
  rw [h1, Nat.add_mod_right, Nat.mod_eq_of_lt (by omega)]

/-- Wrap-around subtraction of a value from itself is zero. -/
theorem sizetSub_self (a : Nat) : sizetSub a a = 0 := by
  have h := Nat.mod_lt a SIZET_MOD_pos
  unfold sizetSub
  have h1 : a % SIZET_MOD + (SIZET_MOD - a % SIZET_MOD) = SIZET_MOD := by omega
  rw [h1, Nat.mod_self]

/-- Consuming a block of strictly positive native receive results whose byte
counts sum exactly to the bytes still missing completes the
`TcpSocket::receive` retry loop with `Success` and leaves the rest of the
trace untouched. -/
theorem recvLoop_all_pos (b : Bool) (sock : Int) (bufSize : Nat)
    (hbuf : bufSize < SIZET_MOD) (oks : List (Int × Int)) :
    ∀ (rem : Nat), (∀ p ∈ oks, 0 < p.1) →
      (oks.map (fun p => p.1.toNat)).sum = rem → rem ≤ bufSize →
      ∀ rest, recvLoop b sock bufSize rem (oks ++ rest) =
        some ((sock, SocketError.Success, bufSize), rest) := by
  induction oks with
  | nil =>
    intro rem _hpos hsum _hle rest
    simp only [List.map_nil, List.sum_nil] at hsum
    rw [recvLoop.eq_def]
    simp [← hsum]
  | cons hd tl ih =>
    intro rem hpos hsum hle rest
    obtain ⟨v, e⟩ := hd
    have hv : 0 < v := hpos (v, e) (by simp)
    have hsum' : v.toNat + (tl.map (fun p => p.1.toNat)).sum = rem := by
      simpa using hsum
    have hvN : 0 < v.toNat := by omega
    have hrem : ¬rem = 0 := by omega
    have hvle : ¬v ≤ 0 := by omega
    rw [recvLoop.eq_def]
    simp only [List.cons_append, hrem, if_false]
    simp only [hvle, if_false]
    rw [sizetSub_of_le (lt_of_le_of_lt hle hbuf) (by omega)]
    exact ih (rem - v.toNat) (fun p hp => hpos p (by simp [hp])) (by omega)
      (by omega) rest

/-- Consuming a block of strictly positive native receive results summing to
fewer bytes than are still missing, followed by a native result of zero
(orderly peer close), makes the `TcpSocket::receive` retry loop invalidate the
handle and return `ConnectionClosed` with the bytes obtained so far. -/
theorem recvLoop_pos_then_zero (b : Bool) (sock : Int) (bufSize : Nat)
    (hbuf : bufSize < SIZET_MOD) (oks : List (Int × Int)) :
    ∀ (rem : Nat) (e : Int) (rest : List (Int × Int)), (∀ p ∈ oks, 0 < p.1) →
      (oks.map (fun p => p.1.toNat)).sum < rem → rem ≤ bufSize →
      recvLoop b sock bufSize rem (oks ++ (0, e) :: rest) =
        some ((INVALID_SOCK, SocketError.ConnectionClosed,
               bufSize - (rem - (oks.map (fun p => p.1.toNat)).sum)), rest) := by
  induction oks with
  | nil =>
    intro rem e rest _hpos hlt hle
    have hrem : ¬rem = 0 := by omega
    rw [recvLoop.eq_def]
    simp only [List.nil_append, hrem, if_false]
    rw [sizetSub_of_le hbuf hle]
    simp
  | cons hd tl ih =>
    intro rem e rest hpos hlt hle
    obtain ⟨v, e0⟩ := hd
    have hv : 0 < v := hpos (v, e0) (by simp)
    have hlt' : v.toNat + (tl.map (fun p => p.1.toNat)).sum < rem := by
      simpa using hlt
    have hvN : 0 < v.toNat := by omega
    have hrem : ¬rem = 0 := by omega
    have hvle : ¬v ≤ 0 := by omega
    rw [recvLoop.eq_def]
    simp only [List.cons_append, hrem, if_false]
    simp only [hvle, if_false]
    rw [sizetSub_of_le (lt_of_le_of_lt hle hbuf) (by omega)]
    have harith :
        bufSize - (rem - (((v, e0) :: tl).map (fun p => p.1.toNat)).sum) =
        bufSize - ((rem - v.toNat) - (tl.map (fun p => p.1.toNat)).sum) := by
      simp only [List.map_cons, List.sum_cons]
      omega
    rw [harith]
    exact ih (rem - v.toNat) e rest (fun p hp => hpos p (by simp [hp]))
      (by omega) (by omega)

/-- Analogue of `recvLoop_all_pos` for the `TcpSocket::send` retry loop:
strictly positive native send results summing exactly to the bytes still
unsent complete the loop with `Success`. -/
theorem sendLoop_all_pos (oks : List (Int × Int)) :
    ∀ (rem : Nat), rem < SIZET_MOD → (∀ p ∈ oks, 0 < p.1) →
      (oks.map (fun p => p.1.toNat)).sum = rem →
      ∀ rest, sendLoop rem (oks ++ rest) = some (SocketError.Success, rest) := by
  induction oks with
  | nil =>
    intro rem _hmod _hpos hsum rest
    simp only [List.map_nil, List.sum_nil] at hsum
    rw [sendLoop.eq_def]
    simp [← hsum]
  | cons hd tl ih =>
    intro rem hmod hpos hsum rest
    obtain ⟨v, e⟩ := hd
    have hv : 0 < v := hpos (v, e) (by simp)
    have hsum' : v.toNat + (tl.map (fun p => p.1.toNat)).sum = rem := by
      simpa using hsum
    have hrem : ¬rem = 0 := by omega
    have hvneg : ¬v < 0 := by omega
    rw [sendLoop.eq_def]
    simp only [List.cons_append, hrem, if_false, hvneg]
    rw [sizetSub_of_le hmod (by omega)]
    exact ih (rem - v.toNat) (by omega) (fun p hp => hpos p (by simp [hp]))
      (by omega) rest

/-- Analogue of `recvLoop_pos_then_zero` for the send loop: after some
strictly positive partial sends, the first negative native result makes the
loop return `SendFailed` immediately, consuming nothing further. -/
theorem sendLoop_pos_then_neg (oks : List (Int × Int)) :
    ∀ (rem : Nat), rem < SIZET_MOD → (∀ p ∈ oks, 0 < p.1) →
      (oks.map (fun p => p.1.toNat)).sum < rem →
      ∀ (v e : Int) (rest : List (Int × Int)), v < 0 →
        sendLoop rem (oks ++ (v, e) :: rest) = some (SocketError.SendFailed, rest) := by
  induction oks with
  | nil =>
    intro rem _hmod _hpos hlt v e rest hv
    have hrem : ¬rem = 0 := by omega
    rw [sendLoop.eq_def]
    simp [hrem, hv]
  | cons hd tl ih =>
    intro rem hmod hpos hlt v e rest hv
    obtain ⟨w, e0⟩ := hd
    have hw : 0 < w := hpos (w, e0) (by simp)
    have hlt' : w.toNat + (tl.map (fun p => p.1.toNat)).sum < rem := by
      simpa using hlt
    have hrem : ¬rem = 0 := by omega
    have hwneg : ¬w < 0 := by omega
    rw [sendLoop.eq_def]
    simp only [List.cons_append, hrem, if_false, hwneg]
    rw [sizetSub_of_le hmod (by omega)]
    exact ih (rem - w.toNat) (by omega) (fun p hp => hpos p (by simp [hp]))
      (by omega) v e rest hv

/-- Whatever trace the send loop runs against, a completed run reports either
`Success` or `SendFailed` — the loop has no other exit. -/
theorem sendLoop_some_cases (trace : List (Int × Int)) :
    ∀ (rem : Nat) (r : SocketError × List (Int × Int)),
      sendLoop rem trace = some r →
      r.1 = SocketError.Success ∨ r.1 = SocketError.SendFailed := by
  induction trace with
  | nil =>
    intro rem r hr
    rw [sendLoop.eq_def] at hr
    by_cases h0 : rem = 0
    · simp [h0] at hr
      subst hr
      simp
    · simp [h0] at hr
  | cons hd tl ih =>
    intro rem r hr
    obtain ⟨v, e⟩ := hd
    rw [sendLoop.eq_def] at hr
    by_cases h0 : rem = 0
    · simp [h0] at hr
      subst hr
      simp
    · by_cases hv : v < 0
      · simp [h0, hv] at hr
        subst hr
        simp
      · simp only [h0, if_false, hv] at hr
        exact ih (sizetSub rem v.toNat) r hr

/-- Under the progress precondition, the send loop completes within `rem`
iterations: a trace offering at least `rem` native results is never
exhausted. -/
theorem sendLoop_isSome_of_progressive (trace : List (Int × Int)) :
    ∀ (rem : Nat), rem < SIZET_MOD → rem ≤ trace.length →
      sendProgressive rem trace = true → (sendLoop rem trace).isSome = true := by
  induction trace with
  | nil =>
    intro rem _hmod hlen _hprog
    have h0 : rem = 0 := Nat.le_zero.mp hlen
    rw [sendLoop.eq_def]
    simp [h0]
  | cons hd tl ih =>
    intro rem hmod hlen hprog
    obtain ⟨v, e⟩ := hd
    rw [sendLoop.eq_def]
    by_cases h0 : rem = 0
    · simp [h0]
    · by_cases hv : v < 0
      · simp [h0, hv]
      · simp only [h0, if_false, hv]
        simp [sendProgressive, h0, hv] at hprog
        obtain ⟨⟨hv0, hvle⟩, hprog'⟩ := hprog
        have hle : v.toNat ≤ rem := by omega
        rw [sizetSub_of_le hmod hle] at hprog' ⊢
        simp only [List.length_cons] at hlen
        exact ih (rem - v.toNat) (by omega) (by omega) hprog'

/-! ## Claims -/

/-- C8: counterexample — moving from a socket with handle 5, last error 3 and
blocking mode on does transfer all cached state to the destination, but the
moved-from source is not identical to a freshly default-constructed socket:
the move resets `_isBlocking` to `false` while `ASocket::ASocket()`
initializes it to `true`. -/
theorem moveAssign_source_differs_from_default :
    (ASocket.moveAssign { _socket := 5, _lastSystemError := 3, _isBlocking := true }).1 =
      { _socket := 5, _lastSystemError := 3, _isBlocking := true } ∧
    (ASocket.moveAssign { _socket := 5, _lastSystemError := 3, _isBlocking := true }).2 ≠
      ASocket.init := by
  decide

/-- C8 (amended): move assignment (and the move constructor, which delegates
to it) transfers the native handle, the cached `_lastSystemError` and the
cached `_isBlocking` to the destination, and resets the source to the invalid
state `{ INVALID_SOCK, 0, false }` — a state in which the source holds no
handle, but which differs from a freshly default-constructed socket in the
`_isBlocking` flag (`false` instead of `true`). -/
theorem moveAssign_transfers_and_invalidates (src : ASocket) :
    (ASocket.moveAssign src).1 = src ∧
    (ASocket.moveAssign src).2 =
      { _socket := INVALID_SOCK, _lastSystemError := 0, _isBlocking := false } ∧
    (ASocket.moveAssign src).2.isConnected = false ∧
    (ASocket.moveAssign src).2._isBlocking ≠ ASocket.init._isBlocking := by
  refine ⟨rfl, rfl, rfl, ?_⟩
  simp [ASocket.moveAssign, ASocket.init]

/-- C6: on a connected `TcpSocket`, the first `disconnect()` returns `Success`
(after a shutdown and a close of the handle) and invalidates the handle, and a
second `disconnect()` returns `NotConnected` leaving the object unchanged and
performing no native operation; likewise, on an open `TcpServerSocket`, the
first `close()` returns `Success` (closing the handle) and the second returns
`NotOpen` with no side effect on the handle. -/
theorem disconnect_twice_and_close_twice (s t : ASocket)
    (hs : s.isConnected = true) (ht : t.isOpen = true) (b1 b2 b3 : Bool) :
    TcpSocket.disconnect s true true =
      some ({ s with _socket := INVALID_SOCK }, SocketError.Success,
            [NativeOp.shutdownOp s._socket, NativeOp.closeOp s._socket]) ∧
    TcpSocket.disconnect { s with _socket := INVALID_SOCK } b1 b2 =
      some ({ s with _socket := INVALID_SOCK }, SocketError.NotConnected, []) ∧
    TcpServerSocket.close t true =
      some ({ t with _socket := INVALID_SOCK }, SocketError.Success,
            [NativeOp.closeOp t._socket]) ∧
    TcpServerSocket.close { t with _socket := INVALID_SOCK } b3 =
      some ({ t with _socket := INVALID_SOCK }, SocketError.NotOpen, []) := by
  have hs' : s._socket ≠ INVALID_SOCK := by simpa [ASocket.isConnected] using hs
  have ht' : t._socket ≠ INVALID_SOCK := by simpa [ASocket.isOpen] using ht
  refine ⟨?_, ?_, ?_, ?_⟩ <;>
    simp [TcpSocket.disconnect, TcpServerSocket.close, ASocket.isConnected,
          ASocket.isOpen, hs', ht']

/-- Concrete instance of `disconnect_twice_and_close_twice` for a connected
socket with handle 5 and an open server socket with handle 7. -/
theorem disconnect_twice_and_close_twice_witness :
    TcpSocket.disconnect ⟨5, 0, true⟩ true true =
      some (⟨INVALID_SOCK, 0, true⟩, SocketError.Success,
            [NativeOp.shutdownOp 5, NativeOp.closeOp 5]) ∧
    TcpSocket.disconnect ⟨INVALID_SOCK, 0, true⟩ true true =
      some (⟨INVALID_SOCK, 0, true⟩, SocketError.NotConnected, []) ∧
    TcpServerSocket.close ⟨7, 0, true⟩ true =
      some (⟨INVALID_SOCK, 0, true⟩, SocketError.Success, [NativeOp.closeOp 7]) ∧
    TcpServerSocket.close ⟨INVALID_SOCK, 0, true⟩ true =
      some (⟨INVALID_SOCK, 0, true⟩, SocketError.NotOpen, []) :=
  disconnect_twice_and_close_twice ⟨5, 0, true⟩ ⟨7, 0, true⟩ (by decide) (by decide)
    true true true

/-- C5: counterexample — destroying a `UdpSocket` whose native handle is still
valid (handle 5) performs no shutdown and no close at all: the destructor body
is empty and delegates to `ASocket::~ASocket()`, which is also empty, so the
handle is leaked rather than shut down and closed. -/
theorem udp_destruction_performs_no_cleanup :
    (⟨5, 0, true⟩ : ASocket).isOpen = true ∧
    UdpSocket.destructor ⟨5, 0, true⟩ = [] := by
  decide

/-- C5 (amended): destroying an object whose native handle is still valid
performs an implicit shutdown+close only for `TcpSocket` (whose destructor
calls `disconnect()`); destroying a `TcpServerSocket` closes the handle
without a shutdown (its destructor calls `close()`, which only closes); and
destroying a `UdpSocket` performs no native operation at all, leaking the
handle. -/
theorem destructor_cleanup_per_kind (s : ASocket) (h : s._socket ≠ INVALID_SOCK) :
    TcpSocket.destructor s true true =
      some [NativeOp.shutdownOp s._socket, NativeOp.closeOp s._socket] ∧
    TcpServerSocket.destructor s true = some [NativeOp.closeOp s._socket] ∧
    UdpSocket.destructor s = [] := by
  refine ⟨?_, ?_, rfl⟩ <;>
    simp [TcpSocket.destructor, TcpSocket.disconnect, TcpServerSocket.destructor,
          TcpServerSocket.close, ASocket.isConnected, ASocket.isOpen, h]

/-- Concrete instance of `destructor_cleanup_per_kind` at handle 5. -/
theorem destructor_cleanup_per_kind_witness :
    TcpSocket.destructor ⟨5, 0, true⟩ true true =
      some [NativeOp.shutdownOp 5, NativeOp.closeOp 5] ∧
    TcpServerSocket.destructor ⟨5, 0, true⟩ true = some [NativeOp.closeOp 5] ∧
    UdpSocket.destructor ⟨5, 0, true⟩ = [] :=
  destructor_cleanup_per_kind ⟨5, 0, true⟩ (by decide)

/-- C7: `waitForAny` returns the failure indicator `false` exactly when the
`select` syscall itself errors (leaving the output list empty), and otherwise
returns `true` with the output list being exactly the sublist of the input
sockets whose handles are marked ready in the post-`select` fd set — the empty
list when no handle is marked because the timeout elapsed first.  The two
equations cover the only two outcomes a `select` call can have, so failure is
returned if and only if the syscall errored. -/
theorem waitForAny_select_semantics (socks : List ASocket) (t : Nat)
    (marked : Int → Bool) :
    waitForAny socks [] t SelectResult.selectError = (false, []) ∧
    waitForAny socks [] t (SelectResult.completed marked) =
      (true, socks.filter (fun s => marked s._socket)) := by
  constructor <;> simp [waitForAny]

/-- C9: counterexample — `UdpSocket::open(0)` on a fresh socket succeeds while
issuing no bind syscall at all (the log of native operations contains only the
socket creation), so the claim that `UdpSocket::open(port)` binds the socket
to 127.0.0.1 fails at `port = 0`. -/
theorem udp_open_port_zero_skips_bind :
    (UdpSocket.open ASocket.init 0 true 5 true).2.1 = SocketError.Success ∧
    (UdpSocket.open ASocket.init 0 true 5 true).2.2 =
      [NativeOp.socketOp AF_INET SOCK_DGRAM 0] ∧
    NativeOp.bindOp 5 LOOPBACK 0 ∉ (UdpSocket.open ASocket.init 0 true 5 true).2.2 := by
  decide

/-- C9 (amended): whenever `TcpServerSocket::open(port)` or
`UdpSocket::open(port)` issues a bind, the bound address is the IPv4 loopback
127.0.0.1 at the given port; `TcpServerSocket::open` always reaches the bind
once the native socket is created, while `UdpSocket::open` binds only when
`port ≠ 0` and skips the bind entirely for `port = 0` (letting the OS pick an
ephemeral port). -/
theorem open_bind_loopback (s : ASocket) (port : Nat) (initOK : Bool)
    (newSock : Int) (bindOK listenOK : Bool) (fd : Int) (a p : Nat) :
    (NativeOp.bindOp fd a p ∈ (TcpServerSocket.open s port initOK newSock bindOK listenOK).2.2 →
        a = LOOPBACK ∧ p = port) ∧
    (NativeOp.bindOp fd a p ∈ (UdpSocket.open s port initOK newSock bindOK).2.2 →
        a = LOOPBACK ∧ p = port ∧ port ≠ 0) ∧
    (s._socket = INVALID_SOCK → initOK = true → newSock ≠ INVALID_SOCK →
        NativeOp.bindOp newSock LOOPBACK port ∈
          (TcpServerSocket.open s port initOK newSock bindOK listenOK).2.2) ∧
    (s._socket = INVALID_SOCK → initOK = true → newSock ≠ INVALID_SOCK → port ≠ 0 →
        NativeOp.bindOp newSock LOOPBACK port ∈
          (UdpSocket.open s port initOK newSock bindOK).2.2) := by
  unfold TcpServerSocket.open UdpSocket.open
  split_ifs <;> simp_all

/-- Concrete instance of `open_bind_loopback`: opening a fresh TCP server
socket on port 80 (native handle 5) issues a bind to 127.0.0.1 : 80, and
opening a fresh UDP socket on port 80 does too. -/
theorem open_bind_loopback_witness :
    NativeOp.bindOp 5 LOOPBACK 80 ∈
      (TcpServerSocket.open ASocket.init 80 true 5 true true).2.2 ∧
    NativeOp.bindOp 5 LOOPBACK 80 ∈
      (UdpSocket.open ASocket.init 80 true 5 true).2.2 :=
  ⟨(open_bind_loopback ASocket.init 80 true 5 true true 5 LOOPBACK 80).2.2.1
      rfl rfl (by decide),
   (open_bind_loopback ASocket.init 80 true 5 true true 5 LOOPBACK 80).2.2.2
      rfl rfl (by decide) (by decide)⟩

/-- C1: on a connected `TcpSocket`, `receive` into a buffer of size `N`
returns `Success` with `outReceived = N` when the repeated native receive
calls deliver exactly `N` bytes in strictly positive chunks; when they deliver
`M < N` bytes and the next native receive returns zero, `receive` invalidates
the local handle (closing it) and returns `ConnectionClosed` with
`outReceived = M`; and on the resulting disconnected socket any subsequent
`receive` returns `NotConnected` (leaving `outReceived` unassigned and issuing
no syscall). -/
theorem tcp_receive_exact_and_closed (s : ASocket) (h : s.isConnected = true)
    (N : Nat) (hN : N < SIZET_MOD) (oks : List (Int × Int))
    (hpos : ∀ p ∈ oks, 0 < p.1) (rest : List (Int × Int)) (e : Int) :
    ((oks.map (fun p => p.1.toNat)).sum = N →
      TcpSocket.receive s N (oks ++ rest) =
        some ((s, SocketError.Success, some N), rest)) ∧
    ((oks.map (fun p => p.1.toNat)).sum < N →
      TcpSocket.receive s N (oks ++ (0, e) :: rest) =
        some (({ s with _socket := INVALID_SOCK }, SocketError.ConnectionClosed,
               some ((oks.map (fun p => p.1.toNat)).sum)), rest)) ∧
    (∀ (M : Nat) (tr : List (Int × Int)),
      TcpSocket.receive { s with _socket := INVALID_SOCK } M tr =
        some (({ s with _socket := INVALID_SOCK }, SocketError.NotConnected, none), tr)) := by
  refine ⟨?_, ?_, ?_⟩
  · intro hsum
    simp only [TcpSocket.receive, h, Bool.not_true, Bool.false_eq_true, if_false]
    rw [recvLoop_all_pos s._isBlocking s._socket N hN oks N hpos hsum le_rfl rest]
    rfl
  · intro hlt
    simp only [TcpSocket.receive, h, Bool.not_true, Bool.false_eq_true, if_false]
    rw [recvLoop_pos_then_zero s._isBlocking s._socket N hN oks N e rest hpos hlt le_rfl]
    have harith : N - (N - (oks.map (fun p => p.1.toNat)).sum) =
        (oks.map (fun p => p.1.toNat)).sum := by omega
    rw [harith]
    rfl
  · intro M tr
    simp [TcpSocket.receive, ASocket.isConnected]

/-- Concrete instance of `tcp_receive_exact_and_closed`: with buffer size 4,
chunks of 3 and 1 bytes yield `Success` with `outReceived = 4`; a chunk of 3
bytes followed by a native result of zero yields `ConnectionClosed` with
`outReceived = 3` and an invalidated handle; and `receive` on the invalidated
socket yields `NotConnected`. -/
theorem tcp_receive_exact_and_closed_witness :
    TcpSocket.receive ⟨5, 0, true⟩ 4 [(3, 0), (1, 0)] =
      some ((⟨5, 0, true⟩, SocketError.Success, some 4), []) ∧
    TcpSocket.receive ⟨5, 0, true⟩ 4 [(3, 0), (0, 0)] =
      some ((⟨INVALID_SOCK, 0, true⟩, SocketError.ConnectionClosed, some 3), []) ∧
    TcpSocket.receive ⟨INVALID_SOCK, 0, true⟩ 4 [] =
      some ((⟨INVALID_SOCK, 0, true⟩, SocketError.NotConnected, none), []) :=
  ⟨(tcp_receive_exact_and_closed ⟨5, 0, true⟩ (by decide) 4 (by decide)
      [(3, 0), (1, 0)] (by decide) [] 0).1 (by decide),
   (tcp_receive_exact_and_closed ⟨5, 0, true⟩ (by decide) 4 (by decide)
      [(3, 0)] (by decide) [] 0).2.1 (by decide),
   (tcp_receive_exact_and_closed ⟨5, 0, true⟩ (by decide) 4 (by decide)
      [(3, 0)] (by decide) [] 0).2.2 4 []⟩

/-- C2: counterexample — on a `UdpSocket` whose native handle is invalid
(default-constructed), `sendTo` and `recvFrom` do not fail fast: each issues
its native syscall anyway (the head trace entry is consumed), and the failing
result (`-1` with errno `EBADF`) is classified as `SendFailed` respectively
`Other` — neither a "not open" nor a "not connected" classification. -/
theorem udp_io_invalid_handle_issues_syscall :
    ASocket.init.isOpen = false ∧
    UdpSocket.sendTo ASocket.init ⟨4, 80⟩ 3 [(-1, EBADF)] =
      some ((ASocket.init, SocketError.SendFailed), []) ∧
    UdpSocket.recvFrom ASocket.init 3 [(-1, EBADF, AF_INET)] =
      some ((ASocket.init, SocketError.Other, none, none), []) ∧
    SocketError.SendFailed ≠ SocketError.NotOpen ∧
    SocketError.Other ≠ SocketError.NotOpen := by
  refine ⟨rfl, rfl, rfl, by decide, by decide⟩

/-- C2 (amended): with an invalid native handle, `TcpSocket::send` and
`TcpSocket::receive` fail fast with `NotConnected` and issue no native
syscall (the trace is returned unconsumed), but `UdpSocket::sendTo` and
`UdpSocket::recvFrom` perform no handle check at all: each issues its one
native syscall regardless, and merely classifies the syscall's failure
(`SendFailed` for `sendTo`; `WouldBlock`/`Timeout`/`Other` for `recvFrom`). -/
theorem invalid_handle_io (s : ASocket) (h : s._socket = INVALID_SOCK)
    (bufSize : Nat) (trace : List (Int × Int)) (ep : Endpoint)
    (hep : endpointToSockaddrOK ep = true) (v e : Int) (tr2 : List (Int × Int))
    (fam : Nat) (tr3 : List (Int × Int × Nat)) (hv : v < 0) :
    TcpSocket.send s bufSize trace = some ((s, SocketError.NotConnected), trace) ∧
    TcpSocket.receive s bufSize trace =
      some ((s, SocketError.NotConnected, none), trace) ∧
    UdpSocket.sendTo s ep bufSize ((v, e) :: tr2) =
      some ((s, SocketError.SendFailed), tr2) ∧
    UdpSocket.recvFrom s bufSize ((v, e, fam) :: tr3) =
      some ((s, classifyRecvError s._isBlocking e, none, none), tr3) := by
  have h' : s.isConnected = false := by simp [ASocket.isConnected, h]
  refine ⟨?_, ?_, ?_, ?_⟩
  · simp [TcpSocket.send, h']
  · simp [TcpSocket.receive, h']
  · simp [UdpSocket.sendTo, hep, hv]
  · simp [UdpSocket.recvFrom, hv]

/-- Concrete instance of `invalid_handle_io` on a default-constructed socket:
the TCP operations return `NotConnected` with the trace unconsumed, the UDP
operations consume their syscall entry. -/
theorem invalid_handle_io_witness :
    TcpSocket.send ASocket.init 3 [(3, 0)] =
      some ((ASocket.init, SocketError.NotConnected), [(3, 0)]) ∧
    TcpSocket.receive ASocket.init 3 [(3, 0)] =
      some ((ASocket.init, SocketError.NotConnected, none), [(3, 0)]) ∧
    UdpSocket.sendTo ASocket.init ⟨4, 80⟩ 3 [(-1, 9)] =
      some ((ASocket.init, SocketError.SendFailed), []) ∧
    UdpSocket.recvFrom ASocket.init 3 [(-1, 9, 2)] =
      some ((ASocket.init, SocketError.Other, none, none), []) :=
  invalid_handle_io ASocket.init rfl 3 [(3, 0)] ⟨4, 80⟩ (by decide) (-1) 9 []
    2 [] (by decide)

/-- C3: on a connected `TcpSocket`, `send` returns `Success` exactly when the
strictly positive native send results accept all `N` bytes of the buffer;
the first native send error makes it return `SendFailed` immediately (nothing
further is consumed from the trace), even though some bytes may already have
been written; and every completed call reports only `Success` or `SendFailed`
— the signature returns a bare `SocketError`, so no partial byte count can
reach the caller. -/
theorem tcp_send_all_or_error (s : ASocket) (h : s.isConnected = true)
    (N : Nat) (hN : N < SIZET_MOD) (oks : List (Int × Int))
    (hpos : ∀ p ∈ oks, 0 < p.1) (rest : List (Int × Int)) (v e : Int)
    (hv : v < 0) :
    ((oks.map (fun p => p.1.toNat)).sum = N →
      TcpSocket.send s N (oks ++ rest) = some ((s, SocketError.Success), rest)) ∧
    ((oks.map (fun p => p.1.toNat)).sum < N →
      TcpSocket.send s N (oks ++ (v, e) :: rest) =
        some ((s, SocketError.SendFailed), rest)) ∧
    (∀ (tr : List (Int × Int)) (r : (ASocket × SocketError) × List (Int × Int)),
      TcpSocket.send s N tr = some r →
      r.1.2 = SocketError.Success ∨ r.1.2 = SocketError.SendFailed) := by
  refine ⟨?_, ?_, ?_⟩
  · intro hsum
    simp only [TcpSocket.send, h, Bool.not_true, Bool.false_eq_true, if_false]
    rw [sendLoop_all_pos oks N hN hpos hsum rest]
    rfl
  · intro hlt
    simp only [TcpSocket.send, h, Bool.not_true, Bool.false_eq_true, if_false]
    rw [sendLoop_pos_then_neg oks N hN hpos hlt v e rest hv]
    rfl
  · intro tr r hr
    simp only [TcpSocket.send, h, Bool.not_true, Bool.false_eq_true, if_false] at hr
    match hsl : sendLoop N tr with
    | none => rw [hsl] at hr; simp at hr
    | some q =>
        rw [hsl] at hr
        simp only [Option.map_some'] at hr
        have hq := sendLoop_some_cases tr N q hsl
        obtain rfl : ((s, q.1), q.2) = r := Option.some.inj hr
        simpa using hq

/-- Concrete instance of `tcp_send_all_or_error`: two partial sends of 2 bytes
each complete a 4-byte send with `Success`; a partial send of 2 bytes followed
by a native error reports `SendFailed` immediately. -/
theorem tcp_send_all_or_error_witness :
    TcpSocket.send ⟨5, 0, true⟩ 4 [(2, 0), (2, 0)] =
      some ((⟨5, 0, true⟩, SocketError.Success), []) ∧
    TcpSocket.send ⟨5, 0, true⟩ 4 [(2, 0), (-1, 9)] =
      some ((⟨5, 0, true⟩, SocketError.SendFailed), []) :=
  ⟨(tcp_send_all_or_error ⟨5, 0, true⟩ (by decide) 4 (by decide)
      [(2, 0), (2, 0)] (by decide) [] (-1) 9 (by decide)).1 (by decide),
   (tcp_send_all_or_error ⟨5, 0, true⟩ (by decide) 4 (by decide)
      [(2, 0)] (by decide) [] (-1) 9 (by decide)).2.1 (by decide)⟩

/-- C4: a negative native result makes `TcpSocket::receive` (on a connected
socket, here at the first call) and `UdpSocket::recvFrom` return the value of
the shared classification chain, and that chain realizes the claimed
classification read in order: on a non-blocking socket a would-block native
error yields `WouldBlock`; otherwise a native error satisfying the timeout
predicate yields `Timeout`; any other negative result yields `Other`. -/
theorem recv_negative_classification (s : ASocket) (h : s.isConnected = true)
    (bufSize : Nat) (hb : 0 < bufSize) (v e : Int) (hv : v < 0)
    (rest : List (Int × Int)) (fam : Nat) (rest3 : List (Int × Int × Nat)) :
    TcpSocket.receive s bufSize ((v, e) :: rest) =
      some ((s, classifyRecvError s._isBlocking e, some 0), rest) ∧
    UdpSocket.recvFrom s bufSize ((v, e, fam) :: rest3) =
      some ((s, classifyRecvError s._isBlocking e, none, none), rest3) ∧
    classifyRecvError false e =
      (if _isWouldBlock e then SocketError.WouldBlock
       else if _isTimeout e then SocketError.Timeout
       else SocketError.Other) ∧
    classifyRecvError true e =
      (if _isTimeout e then SocketError.Timeout else SocketError.Other) := by
  have hb' : ¬bufSize = 0 := by omega
  have hvle : v ≤ 0 := le_of_lt hv
  have hv0 : ¬v = 0 := by omega
  refine ⟨?_, ?_, ?_, ?_⟩
  · simp only [TcpSocket.receive, h, Bool.not_true, Bool.false_eq_true, if_false]
    rw [recvLoop.eq_def]
    simp only [hb', if_false, hvle, if_true, hv0, sizetSub_self]
    rfl
  · simp [UdpSocket.recvFrom, hv]
  · simp [classifyRecvError]
  · simp [classifyRecvError]

/-- Concrete instance of `recv_negative_classification`: a blocking socket
receiving native error `ETIMEDOUT` gets `Timeout` from both `receive` and
`recvFrom`. -/
theorem recv_negative_classification_witness :
    TcpSocket.receive ⟨5, 0, true⟩ 3 [(-1, 110)] =
      some ((⟨5, 0, true⟩, SocketError.Timeout, some 0), []) ∧
    UdpSocket.recvFrom ⟨5, 0, true⟩ 3 [(-1, 110, 2)] =
      some ((⟨5, 0, true⟩, SocketError.Timeout, none, none), []) :=
  ⟨(recv_negative_classification ⟨5, 0, true⟩ (by decide) 3 (by decide)
      (-1) 110 (by decide) [] 2 []).1,
   (recv_negative_classification ⟨5, 0, true⟩ (by decide) 3 (by decide)
      (-1) 110 (by decide) [] 2 []).2.1⟩

/-- C10: on a connected socket, the `TcpSocket::send` retry loop terminates on
every execution in which each native send result is either negative or
strictly positive (and, per the POSIX contract encoded in `sendProgressive`,
no larger than the bytes requested): a trace offering at least `N` native
results is never exhausted, because — as the second conjunct states — the
remaining byte count strictly decreases on every successful iteration, making
the loop well-founded; a native result of zero, by contrast, is excluded
because it makes no progress. -/
theorem tcp_send_terminates (s : ASocket) (h : s.isConnected = true)
    (N : Nat) (hN : N < SIZET_MOD) (trace : List (Int × Int))
    (hlen : N ≤ trace.length) (hprog : sendProgressive N trace = true) :
    (TcpSocket.send s N trace).isSome = true ∧
    (∀ (rem : Nat) (v : Int), rem < SIZET_MOD → 0 < v → v.toNat ≤ rem →
      sizetSub rem v.toNat < rem) := by
  constructor
  · simp only [TcpSocket.send, h, Bool.not_true, Bool.false_eq_true, if_false]
    have hs := sendLoop_isSome_of_progressive trace N hN hlen hprog
    cases hsl : sendLoop N trace with
    | none => rw [hsl] at hs; simp at hs
    | some q => simp
  · intro rem v hm hv hle
    rw [sizetSub_of_le hm hle]
    omega

/-- Concrete instance of `tcp_send_terminates`: a 2-byte send against a trace
of two 1-byte acceptances completes. -/
theorem tcp_send_terminates_witness :
    (TcpSocket.send ⟨5, 0, true⟩ 2 [(1, 0), (1, 0)]).isSome = true :=
  (tcp_send_terminates ⟨5, 0, true⟩ (by decide) 2 (by decide)
    [(1, 0), (1, 0)] (by decide) (by decide)).1

end CppUtils
